import Mathlib

/-!
Shallow embedding of the CIVOPS-Radar risk-assessment engine
(`src/server/risk_engine.py`) and verification of its specification.

Modelling conventions:
* Python `str` is Lean `String`; `x in s` (substring test) is `strContains`,
  defined below over character lists.
* Python ints are Lean `Int` (signal levels are negative dBm values).
* The wall-clock hour read by `datetime.now().hour` inside
  `_assess_temporal_patterns` is passed explicitly as a `current_hour : Nat`
  parameter; everything else in the engine is pure.
* `historical_data : List NetworkProfile = None` becomes a plain list; Python
  truthiness (`if historical_data:`) is `¬ historical_data.isEmpty`, which is
  the same test for both `None` and `[]`.
* The float standard deviation in `_assess_signal_fluctuation` is modelled
  exactly over `ℚ`: the code compares `math.sqrt(variance) > 15` and `> 10`,
  which (square root being monotone, both sides non-negative) is
  `variance > 225` and `variance > 100`.
-/

namespace CivopsRadar

/-- Substring test on character lists: `strContainsAux needle hay` is true iff
`needle` occurs contiguously inside `hay`; mirrors Python's `needle in hay`. -/
def strContainsAux (needle : List Char) : List Char → Bool
  | [] => needle.isEmpty
  | c :: rest => needle.isPrefixOf (c :: rest) || strContainsAux needle rest

/-- Python's `needle in hay` where the haystack is a character list. -/
def charsContain (hay : List Char) (needle : String) : Bool :=
  strContainsAux needle.toList hay

/-- Python's `s.upper()`, modelled character-wise (the engine's tokens are
ASCII, where `Char.toUpper` agrees with Python). -/
def upperChars (s : String) : List Char :=
  s.toList.map Char.toUpper

/-- Python's `s.lower()`, modelled character-wise. -/
def lowerChars (s : String) : List Char :=
  s.toList.map Char.toLower

/-- `NetworkProfile` dataclass (risk_engine.py lines 17-30).  The fields
`first_seen`, `last_seen` and `scan_count` are never read by the engine and
are omitted. -/
structure NetworkProfile where
  bssid : String
  ssid : String
  capabilities : String
  frequency : Int
  level : Int
  is_hidden : Bool
  is_open : Bool
  vendor : Option String := none
deriving Repr, DecidableEq

/-- `RiskFactors` dataclass (risk_engine.py lines 32-44). -/
structure RiskFactors where
  open_network : Int := 0
  hidden_ssid : Int := 0
  weak_encryption : Int := 0
  suspicious_ssid : Int := 0
  signal_fluctuation : Int := 0
  proximity_risk : Int := 0
  vendor_risk : Int := 0
  beacon_anomaly : Int := 0
  channel_conflict : Int := 0
  temporal_risk : Int := 0
deriving Repr, DecidableEq

namespace RiskEngine

/-- `self.suspicious_patterns` (risk_engine.py lines 50-59).  Each Python
pattern is `(?i)(a|b|c)` — a case-insensitive alternation of literal words —
applied with `re.search` to the already lower-cased SSID, so each pattern is
modelled as the list of its lower-case alternatives and matching as "some
alternative is a substring". -/
def suspicious_patterns : List (List String) :=
  [ ["free", "public", "guest", "open"],
    ["wifi", "internet", "hotspot"],
    ["admin", "root", "test", "demo"],
    ["hack", "crack", "pwn"],
    ["evil", "rogue", "fake"],
    ["airport", "hotel", "coffee"],
    ["mobile", "phone", "android"],
    ["backdoor", "trojan", "virus"] ]

/-- `self.risky_vendors` (risk_engine.py lines 61-64). -/
def risky_vendors : List String :=
  ["Cisco", "Linksys", "Netgear", "D-Link", "TP-Link",
   "Belkin", "ASUS", "Ubiquiti", "Mikrotik"]

/-- `_assess_open_network` (lines 121-125). -/
def _assess_open_network (network : NetworkProfile) : Int :=
  if network.is_open then 30 else 0

/-- `_assess_hidden_ssid` (lines 127-131). -/
def _assess_hidden_ssid (network : NetworkProfile) : Int :=
  if network.is_hidden then 20 else 0

/-- `_assess_encryption_strength` (lines 133-150): the `if/elif` chain on the
upper-cased capabilities string, in source order. -/
def _assess_encryption_strength (network : NetworkProfile) : Int :=
  if network.is_open then 0
  else
    let capabilities := upperChars network.capabilities
    if charsContain capabilities "WEP" then 25
    else if charsContain capabilities "WPA" && !charsContain capabilities "WPA2" then 15
    else if charsContain capabilities "WPA2" && !charsContain capabilities "WPA3" then 5
    else if charsContain capabilities "WPA3" then 0
    else 20

/-- `_assess_suspicious_ssid` (lines 152-164): `+10` per matching pattern,
capped at 30; an empty SSID (Python falsy) returns 0 immediately. -/
def _assess_suspicious_ssid (network : NetworkProfile) : Int :=
  if network.ssid = "" then 0
  else
    let ssid := lowerChars network.ssid
    let risk_score := suspicious_patterns.foldl
      (fun acc pat => if pat.any (fun alt => charsContain ssid alt) then acc + 10 else acc) 0
    min 30 risk_score

/-- Line 173 of `_assess_signal_fluctuation`: the signal levels of the
history entries whose bssid matches the observation's. -/
def matching_signal_levels (network : NetworkProfile)
    (historical_data : List NetworkProfile) : List Int :=
  (historical_data.filter (fun n => n.bssid == network.bssid)).map (fun n => n.level)

/-- Line 179: `mean_level = sum(signal_levels) / len(signal_levels)`,
modelled exactly over `ℚ`. -/
def population_mean (signal_levels : List Int) : ℚ :=
  (signal_levels.map (fun x => (x : ℚ))).sum / (signal_levels.length : ℚ)

/-- Line 180: the population variance
`sum((x - mean_level)**2 for x in signal_levels) / len(signal_levels)`,
modelled exactly over `ℚ`. -/
def population_variance (signal_levels : List Int) : ℚ :=
  (signal_levels.map (fun x => ((x : ℚ) - population_mean signal_levels) ^ 2)).sum
    / (signal_levels.length : ℚ)

/-- `_assess_signal_fluctuation` (lines 166-189).  The float mean / variance /
`math.sqrt` pipeline is modelled exactly over `ℚ`: the code compares
`std_dev = sqrt(variance)` against 15 and 10, and since the square root is
monotone and both sides non-negative, `std_dev > 15` is `variance > 225` and
`std_dev > 10` is `variance > 100`. -/
def _assess_signal_fluctuation (network : NetworkProfile)
    (historical_data : List NetworkProfile) : Int :=
  if historical_data.length < 3 then 0
  else if (matching_signal_levels network historical_data).length < 3 then 0
  else if population_variance (matching_signal_levels network historical_data) > 225 then 15
  else if population_variance (matching_signal_levels network historical_data) > 100 then 8
  else 0

/-- `_assess_proximity_risk` (lines 191-205): an `if/elif` tier on strong
signals plus an independent very-weak-signal check, summed. -/
def _assess_proximity_risk (network : NetworkProfile) : Int :=
  (if network.level > -30 then 10
   else if network.level > -50 then 5
   else 0)
  + (if network.level < -80 then 5 else 0)

/-- `_assess_vendor_risk` (lines 207-216): `None` and the empty string are
both Python-falsy and return 0 before the membership test. -/
def _assess_vendor_risk (network : NetworkProfile) : Int :=
  match network.vendor with
  | none => 0
  | some v => if v = "" then 0 else if risky_vendors.contains v then 5 else 0

/-- The 14 standard 2.4 GHz channel centre frequencies (line 223). -/
def standard_frequencies : List Int :=
  [2412, 2417, 2422, 2427, 2432, 2437, 2442, 2447, 2452, 2457, 2462, 2467, 2472, 2484]

/-- `_assess_beacon_anomalies` (lines 218-230): two independent additive
checks. -/
def _assess_beacon_anomalies (network : NetworkProfile) : Int :=
  (if standard_frequencies.contains network.frequency then 0 else 10)
  + (if network.frequency < 2400 ∨ network.frequency > 2500 then 15 else 0)

/-- `_assess_channel_conflicts` (lines 232-236): always 0. -/
def _assess_channel_conflicts (_network : NetworkProfile) : Int := 0

/-- `_assess_temporal_patterns` (lines 238-251): current wall-clock hour
passed explicitly. -/
def _assess_temporal_patterns (_network : NetworkProfile)
    (historical_data : List NetworkProfile) (current_hour : Nat) : Int :=
  if historical_data.isEmpty then 0
  else if 2 ≤ current_hour ∧ current_hour ≤ 6 then 5
  else 0

/-- Lines 87-103 of `calculate_risk_score`: the `RiskFactors` record as filled
in by the factor evaluators.  The history-dependent factors are only
evaluated under `if historical_data:` (lines 96-98). -/
def calculate_risk_factors (network : NetworkProfile)
    (historical_data : List NetworkProfile) (current_hour : Nat) : RiskFactors :=
  { open_network := _assess_open_network network
    hidden_ssid := _assess_hidden_ssid network
    weak_encryption := _assess_encryption_strength network
    suspicious_ssid := _assess_suspicious_ssid network
    signal_fluctuation :=
      if historical_data.isEmpty then 0
      else _assess_signal_fluctuation network historical_data
    temporal_risk :=
      if historical_data.isEmpty then 0
      else _assess_temporal_patterns network historical_data current_hour
    proximity_risk := _assess_proximity_risk network
    vendor_risk := _assess_vendor_risk network
    beacon_anomaly := _assess_beacon_anomalies network
    channel_conflict := _assess_channel_conflicts network }

/-- `calculate_risk_score` (lines 75-119): the factor record of
`calculate_risk_factors` together with the clamped sum of all ten factors
(lines 106-117). -/
def calculate_risk_score (network : NetworkProfile)
    (historical_data : List NetworkProfile) (current_hour : Nat) :
    Int × RiskFactors :=
  let factors : RiskFactors := calculate_risk_factors network historical_data current_hour
  let total_score :=
    min 100 (max 0
      (factors.open_network + factors.hidden_ssid + factors.weak_encryption
        + factors.suspicious_ssid + factors.signal_fluctuation
        + factors.proximity_risk + factors.vendor_risk + factors.beacon_anomaly
        + factors.channel_conflict + factors.temporal_risk))
  (total_score, factors)

/-- `get_risk_level` (lines 253-264). -/
def get_risk_level (score : Int) : String :=
  if score ≥ 70 then "CRITICAL"
  else if score ≥ 50 then "HIGH"
  else if score ≥ 30 then "MEDIUM"
  else if score ≥ 10 then "LOW"
  else "MINIMAL"

/-- `get_risk_color` (lines 266-277). -/
def get_risk_color (score : Int) : String :=
  if score ≥ 70 then "#ef4444"
  else if score ≥ 50 then "#f59e0b"
  else if score ≥ 30 then "#eab308"
  else if score ≥ 10 then "#10b981"
  else "#6b7280"

/-- `_generate_recommendations` (lines 304-335): nine `if factor > 0` appends
in source order (channel_conflict has no branch). -/
def _generate_recommendations (factors : RiskFactors) : List String :=
  (if factors.open_network > 0 then ["Avoid connecting to open networks"] else [])
  ++ (if factors.hidden_ssid > 0 then ["Be cautious of hidden networks"] else [])
  ++ (if factors.weak_encryption > 0 then ["Network uses weak encryption"] else [])
  ++ (if factors.suspicious_ssid > 0 then ["SSID appears suspicious"] else [])
  ++ (if factors.signal_fluctuation > 0 then ["Signal strength is unstable"] else [])
  ++ (if factors.proximity_risk > 0 then ["Network is very close or very far"] else [])
  ++ (if factors.vendor_risk > 0 then ["Vendor has known security issues"] else [])
  ++ (if factors.beacon_anomaly > 0 then ["Network uses unusual frequencies"] else [])
  ++ (if factors.temporal_risk > 0 then ["Network active during unusual hours"] else [])

/-- `_assess_signal_fluctuation` again, with the two Python-fallible
operations made explicit: `none` marks where Python would raise.  Both
divisions (mean and variance) share the denominator `len(signal_levels)`, so
a single zero test guards them (`ZeroDivisionError`); `math.sqrt` raises
`ValueError` on a negative argument. -/
def _assess_signal_fluctuation_opt (network : NetworkProfile)
    (historical_data : List NetworkProfile) : Option Int :=
  if historical_data.length < 3 then some 0
  else if (matching_signal_levels network historical_data).length < 3 then some 0
  else if ((matching_signal_levels network historical_data).length : ℚ) = 0 then none
  else if population_variance (matching_signal_levels network historical_data) < 0 then none
  else some
    (if population_variance (matching_signal_levels network historical_data) > 225 then 15
     else if population_variance (matching_signal_levels network historical_data) > 100 then 8
     else 0)

/-- `calculate_risk_score` with Python-fallibility made explicit: the only
operations in the whole call tree that can raise are the ones inside
`_assess_signal_fluctuation` (all other evaluators are straight-line
arithmetic, regex search over fixed valid patterns, and membership tests). -/
def calculate_risk_score_opt (network : NetworkProfile)
    (historical_data : List NetworkProfile) (current_hour : Nat) :
    Option (Int × RiskFactors) :=
  match (if historical_data.isEmpty then some 0
         else _assess_signal_fluctuation_opt network historical_data) with
  | none => none
  | some fl =>
    let factors : RiskFactors :=
      { open_network := _assess_open_network network
        hidden_ssid := _assess_hidden_ssid network
        weak_encryption := _assess_encryption_strength network
        suspicious_ssid := _assess_suspicious_ssid network
        signal_fluctuation := fl
        temporal_risk :=
          if historical_data.isEmpty then 0
          else _assess_temporal_patterns network historical_data current_hour
        proximity_risk := _assess_proximity_risk network
        vendor_risk := _assess_vendor_risk network
        beacon_anomaly := _assess_beacon_anomalies network
        channel_conflict := _assess_channel_conflicts network }
    some (min 100 (max 0
      (factors.open_network + factors.hidden_ssid + factors.weak_encryption
        + factors.suspicious_ssid + factors.signal_fluctuation
        + factors.proximity_risk + factors.vendor_risk + factors.beacon_anomaly
        + factors.channel_conflict + factors.temporal_risk)), factors)

end RiskEngine

open RiskEngine

/-! Concrete network profiles used by counterexamples and witnesses. -/

/-- The spec's §8 example observation: open network named "FreeWiFi". -/
def freeWifiObservation : NetworkProfile :=
  { bssid := "AA:BB", ssid := "FreeWiFi", capabilities := "[ESS]",
    frequency := 2437, level := -60, is_hidden := false, is_open := true,
    vendor := none }

/-- A non-open network advertising WPA3 (and only WPA3). -/
def wpa3OnlyObservation : NetworkProfile :=
  { bssid := "0A:0B", ssid := "HomeNet5", capabilities := "[WPA3-SAE-CCMP][ESS]",
    frequency := 2412, level := -45, is_hidden := false, is_open := false,
    vendor := none }

/-- A non-open network advertising both WPA2 and WPA3. -/
def wpa2wpa3Observation : NetworkProfile :=
  { bssid := "0A:0C", ssid := "HomeNet6", capabilities := "[WPA2-PSK][WPA3-SAE][ESS]",
    frequency := 2417, level := -47, is_hidden := false, is_open := false,
    vendor := none }

/-- A history entry whose bssid differs from `wpa3OnlyObservation`'s. -/
def otherBssidObservation : NetworkProfile :=
  { bssid := "FF:EE", ssid := "Lobby", capabilities := "[WPA2-PSK-CCMP][ESS]",
    frequency := 2462, level := -70, is_hidden := false, is_open := false,
    vendor := none }

/-- A history entry with the same bssid as `wpa3OnlyObservation`. -/
def matchingHistoryObservation : NetworkProfile :=
  { bssid := "0A:0B", ssid := "HomeNet5", capabilities := "[WPA3-SAE-CCMP][ESS]",
    frequency := 2412, level := -52, is_hidden := false, is_open := false,
    vendor := none }

/-- A non-open observation with no vendor, empty SSID and a capabilities
string carrying none of the recognized encryption tokens. -/
def essOnlyObservation : NetworkProfile :=
  { bssid := "0C:0D", ssid := "", capabilities := "[ESS]",
    frequency := 2412, level := -55, is_hidden := false, is_open := false,
    vendor := none }

/-- Three prior observations of `essOnlyObservation`'s bssid, exercising the
standard-deviation path of `_assess_signal_fluctuation`. -/
def fluctuatingHistory : List NetworkProfile :=
  [ { essOnlyObservation with level := -40 },
    { essOnlyObservation with level := -60 },
    { essOnlyObservation with level := -80 } ]

/-- The canonical (factor value, advisory string) table of the nine factors
considered by `_generate_recommendations`, in source order (channel_conflict
excluded); used to state claim C7. -/
def recommendation_table (factors : RiskFactors) : List (Int × String) :=
  [ (factors.open_network, "Avoid connecting to open networks"),
    (factors.hidden_ssid, "Be cautious of hidden networks"),
    (factors.weak_encryption, "Network uses weak encryption"),
    (factors.suspicious_ssid, "SSID appears suspicious"),
    (factors.signal_fluctuation, "Signal strength is unstable"),
    (factors.proximity_risk, "Network is very close or very far"),
    (factors.vendor_risk, "Vendor has known security issues"),
    (factors.beacon_anomaly, "Network uses unusual frequencies"),
    (factors.temporal_risk, "Network active during unusual hours") ]

/-- A sample breakdown with three triggered factors, for the C7 witness. -/
def sampleFactors : RiskFactors :=
  { open_network := 30, suspicious_ssid := 20, temporal_risk := 5 }

/-! Theorems settling the claims. -/

/-- Claim C5 (confirmed): the total score returned by `calculate_risk_score`
equals the sum of the ten factor values of the returned breakdown clamped to
[0, 100], so `0 ≤ totalScore ≤ 100` holds for all inputs. -/
theorem C5_total_is_clamped_factor_sum (network : NetworkProfile)
    (historical_data : List NetworkProfile) (current_hour : Nat) :
    (calculate_risk_score network historical_data current_hour).1
      = min 100 (max 0
          ((calculate_risk_score network historical_data current_hour).2.open_network
            + (calculate_risk_score network historical_data current_hour).2.hidden_ssid
            + (calculate_risk_score network historical_data current_hour).2.weak_encryption
            + (calculate_risk_score network historical_data current_hour).2.suspicious_ssid
            + (calculate_risk_score network historical_data current_hour).2.signal_fluctuation
            + (calculate_risk_score network historical_data current_hour).2.proximity_risk
            + (calculate_risk_score network historical_data current_hour).2.vendor_risk
            + (calculate_risk_score network historical_data current_hour).2.beacon_anomaly
            + (calculate_risk_score network historical_data current_hour).2.channel_conflict
            + (calculate_risk_score network historical_data current_hour).2.temporal_risk))
    ∧ 0 ≤ (calculate_risk_score network historical_data current_hour).1
    ∧ (calculate_risk_score network historical_data current_hour).1 ≤ 100 := by
  refine ⟨rfl, ?_, ?_⟩
  · exact le_min (by norm_num) (le_max_left 0 _)
  · exact min_le_left _ _

/-- Claim C6 (confirmed): `get_risk_level` classifies with inclusive lower
boundaries and top-down precedence: ≥ 70 CRITICAL, ≥ 50 HIGH, ≥ 30 MEDIUM,
≥ 10 LOW, else MINIMAL; in particular at the eight boundary scores listed by
the spec. -/
theorem C6_risk_level_bands :
    (∀ score : Int,
      (get_risk_level score = "CRITICAL" ↔ 70 ≤ score)
      ∧ (get_risk_level score = "HIGH" ↔ 50 ≤ score ∧ score < 70)
      ∧ (get_risk_level score = "MEDIUM" ↔ 30 ≤ score ∧ score < 50)
      ∧ (get_risk_level score = "LOW" ↔ 10 ≤ score ∧ score < 30)
      ∧ (get_risk_level score = "MINIMAL" ↔ score < 10))
    ∧ get_risk_level 70 = "CRITICAL" ∧ get_risk_level 69 = "HIGH"
    ∧ get_risk_level 50 = "HIGH" ∧ get_risk_level 49 = "MEDIUM"
    ∧ get_risk_level 30 = "MEDIUM" ∧ get_risk_level 29 = "LOW"
    ∧ get_risk_level 10 = "LOW" ∧ get_risk_level 9 = "MINIMAL" := by
  refine ⟨fun score => ?_, by decide, by decide, by decide, by decide,
    by decide, by decide, by decide, by decide⟩
  unfold get_risk_level
  split_ifs <;>
    refine ⟨?_, ?_, ?_, ?_, ?_⟩ <;>
    first
      | exact iff_of_true rfl (by omega)
      | exact iff_of_false (by decide) (by omega)

/-- Claim C9 (confirmed): `get_risk_color` is keyed 1:1 to the same score
thresholds as `get_risk_level`: two scores get the same level exactly when
they get the same color. -/
theorem C9_color_keyed_to_level (s t : Int) :
    get_risk_level s = get_risk_level t ↔ get_risk_color s = get_risk_color t := by
  unfold get_risk_level get_risk_color
  split_ifs <;> decide

/-- Claim C10 (confirmed): the proximity factor is always one of 0, 5, 10 —
the very-strong tier (level > -30) and the very-weak tier (level < -80) can
never both hold — so it never reaches 15. -/
theorem C10_proximity_values (network : NetworkProfile) :
    (_assess_proximity_risk network = 0 ∨ _assess_proximity_risk network = 5
      ∨ _assess_proximity_risk network = 10)
    ∧ ¬(network.level > -30 ∧ network.level < -80) := by
  unfold _assess_proximity_risk
  constructor
  · split_ifs <;> omega
  · omega

/-- Claim C1 (counterexample): a non-open observation whose capabilities
contain "WPA3" but no "WPA2" is scored `weak_encryption = 15`, not 0 — the
`'WPA' in caps and 'WPA2' not in caps` branch fires first. -/
theorem C1_counterexample :
    wpa3OnlyObservation.is_open = false
    ∧ charsContain (upperChars wpa3OnlyObservation.capabilities) "WPA3" = true
    ∧ (calculate_risk_score wpa3OnlyObservation [] 12).2.weak_encryption = 15
    ∧ (15 : Int) ≠ 0 := by decide

/-- Claim C1 (amended): for a non-open observation whose capabilities contain
(case-insensitively) "WPA3" and also "WPA2" but not "WEP", the
`weak_encryption` factor computed by `calculate_risk_score` is 0. -/
theorem C1_wpa3_with_wpa2_scores_zero (network : NetworkProfile)
    (historical_data : List NetworkProfile) (current_hour : Nat)
    (hopen : network.is_open = false)
    (h3 : charsContain (upperChars network.capabilities) "WPA3" = true)
    (h2 : charsContain (upperChars network.capabilities) "WPA2" = true)
    (hwep : charsContain (upperChars network.capabilities) "WEP" = false) :
    (calculate_risk_score network historical_data current_hour).2.weak_encryption = 0 := by
  show _assess_encryption_strength network = 0
  unfold _assess_encryption_strength
  simp [hopen, h3, h2, hwep]

/-- Claim C1 witness: the amended statement at a concrete WPA2+WPA3 network. -/
theorem C1_witness :
    (calculate_risk_score wpa2wpa3Observation [] 12).2.weak_encryption = 0 :=
  C1_wpa3_with_wpa2_scores_zero wpa2wpa3Observation [] 12 rfl (by decide)
    (by decide) (by decide)

/-- Claim C2 (counterexample): at hour 3 (inside [2,6]) with an empty (or
omitted) history, `temporal_risk` is 0, not 5 — the factor is only computed
under `if historical_data:`. -/
theorem C2_counterexample :
    (2 ≤ 3 ∧ 3 ≤ 6)
    ∧ (calculate_risk_score wpa3OnlyObservation [] 3).2.temporal_risk = 0
    ∧ (0 : Int) ≠ 5 := by decide

/-- Claim C2 (amended): `temporal_risk` is 5 exactly when the history is
non-empty and the evaluation hour falls in [2,6], and 0 otherwise; it depends
only on the hour and on the non-emptiness of the supplied history, not on any
other part of the observation or history. -/
theorem C2_temporal_rule (network : NetworkProfile)
    (historical_data : List NetworkProfile) (current_hour : Nat) :
    (calculate_risk_score network historical_data current_hour).2.temporal_risk
      = if ¬historical_data.isEmpty ∧ 2 ≤ current_hour ∧ current_hour ≤ 6
        then 5 else 0 := by
  show (if historical_data.isEmpty then 0
        else _assess_temporal_patterns network historical_data current_hour) = _
  unfold _assess_temporal_patterns
  by_cases h : historical_data.isEmpty <;>
    by_cases h2 : 2 ≤ current_hour ∧ current_hour ≤ 6 <;>
    simp [h, h2]

/-- Claim C4 (counterexample): the spec example's SSID "FreeWiFi" matches both
the `free` pattern and the `wifi` pattern, so `suspicious_ssid` is 20, not
10. -/
theorem C4_counterexample :
    (calculate_risk_score freeWifiObservation [] 12).2.suspicious_ssid = 20
    ∧ (20 : Int) ≠ 10 := by decide

/-- Claim C4 (amended): on the spec's §8 example observation with no history,
the breakdown is openNetwork 30, weakEncryption 0, suspiciousName 20 (two
matching patterns), proximity 0, beaconAnomaly 0 and every other factor 0;
the total is 50 (≥ 40) and the level is HIGH (at least MEDIUM), at any
evaluation hour. -/
theorem C4_free_wifi_example (current_hour : Nat) :
    (calculate_risk_score freeWifiObservation [] current_hour).2.open_network = 30
    ∧ (calculate_risk_score freeWifiObservation [] current_hour).2.weak_encryption = 0
    ∧ (calculate_risk_score freeWifiObservation [] current_hour).2.suspicious_ssid = 20
    ∧ (calculate_risk_score freeWifiObservation [] current_hour).2.proximity_risk = 0
    ∧ (calculate_risk_score freeWifiObservation [] current_hour).2.beacon_anomaly = 0
    ∧ (calculate_risk_score freeWifiObservation [] current_hour).2.hidden_ssid = 0
    ∧ (calculate_risk_score freeWifiObservation [] current_hour).2.signal_fluctuation = 0
    ∧ (calculate_risk_score freeWifiObservation [] current_hour).2.vendor_risk = 0
    ∧ (calculate_risk_score freeWifiObservation [] current_hour).2.channel_conflict = 0
    ∧ (calculate_risk_score freeWifiObservation [] current_hour).2.temporal_risk = 0
    ∧ (calculate_risk_score freeWifiObservation [] current_hour).1 = 50
    ∧ 40 ≤ (calculate_risk_score freeWifiObservation [] current_hour).1
    ∧ get_risk_level (calculate_risk_score freeWifiObservation [] current_hour).1
        = "HIGH" := by
  have hh : calculate_risk_score freeWifiObservation [] current_hour
      = calculate_risk_score freeWifiObservation [] 12 := rfl
  rw [hh]
  decide

lemma ite_singleton_append {c : Prop} [Decidable c] (s : String) (X : List String) :
    (if c then [s] else []) ++ X = if c then s :: X else X := by
  split <;> simp

lemma ite_cons_append {c : Prop} [Decidable c] (s : String) (X Y : List String) :
    (if c then s :: X else X) ++ Y = if c then s :: (X ++ Y) else X ++ Y := by
  split <;> simp

lemma bne_zero_iff_pos {v : Int} (h : 0 ≤ v) : ((v != 0) = true) ↔ 0 < v := by
  simp only [bne_iff_ne, ne_eq]
  omega

/-- Claim C7 (confirmed): for every breakdown of non-negative factor values
(the engine produces no others), `_generate_recommendations` returns exactly
one fixed advisory string per non-zero factor among the nine considered, in
the canonical source order, so its length is the number of non-zero factors
among those nine. -/
theorem C7_recommendations (factors : RiskFactors)
    (h : 0 ≤ factors.open_network ∧ 0 ≤ factors.hidden_ssid
      ∧ 0 ≤ factors.weak_encryption ∧ 0 ≤ factors.suspicious_ssid
      ∧ 0 ≤ factors.signal_fluctuation ∧ 0 ≤ factors.proximity_risk
      ∧ 0 ≤ factors.vendor_risk ∧ 0 ≤ factors.beacon_anomaly
      ∧ 0 ≤ factors.temporal_risk) :
    _generate_recommendations factors
      = ((recommendation_table factors).filter (fun p => p.1 != 0)).map Prod.snd
    ∧ (_generate_recommendations factors).length
      = (recommendation_table factors).countP (fun p => p.1 != 0) := by
  obtain ⟨h1, h2, h3, h4, h5, h6, h7, h8, h9⟩ := h
  have key : _generate_recommendations factors
      = ((recommendation_table factors).filter (fun p => p.1 != 0)).map Prod.snd := by
    unfold _generate_recommendations recommendation_table
    simp only [List.filter_cons, List.filter_nil, List.map_nil,
      apply_ite (List.map (Prod.snd : Int × String → String)), List.map_cons,
      bne_zero_iff_pos h1, bne_zero_iff_pos h2, bne_zero_iff_pos h3,
      bne_zero_iff_pos h4, bne_zero_iff_pos h5, bne_zero_iff_pos h6,
      bne_zero_iff_pos h7, bne_zero_iff_pos h8, bne_zero_iff_pos h9,
      List.append_assoc, ite_singleton_append, ite_cons_append, List.nil_append,
      List.append_nil]
  refine ⟨key, ?_⟩
  rw [key, List.length_map, List.countP_eq_length_filter]

/-- Claim C7 witness: the statement at a concrete breakdown with three
non-zero factors. -/
theorem C7_witness :
    _generate_recommendations sampleFactors
      = ((recommendation_table sampleFactors).filter (fun p => p.1 != 0)).map Prod.snd
    ∧ (_generate_recommendations sampleFactors).length
      = (recommendation_table sampleFactors).countP (fun p => p.1 != 0) :=
  C7_recommendations sampleFactors (by decide)

lemma filter_idem (p : NetworkProfile → Bool) (l : List NetworkProfile) :
    (l.filter p).filter p = l.filter p := by
  induction l with
  | nil => rfl
  | cons a l ih => by_cases h : p a <;> simp [List.filter_cons, h, ih]

lemma msl_filter (network : NetworkProfile) (historical_data : List NetworkProfile) :
    matching_signal_levels network
        (historical_data.filter (fun n => n.bssid == network.bssid))
      = matching_signal_levels network historical_data := by
  unfold matching_signal_levels
  rw [filter_idem]

/-- `_assess_signal_fluctuation` only looks at the entries whose bssid matches
the observation's: filtering the history down to those entries does not change
its value. -/
lemma fluct_on_matching (network : NetworkProfile)
    (historical_data : List NetworkProfile) :
    _assess_signal_fluctuation network historical_data
      = _assess_signal_fluctuation network
          (historical_data.filter (fun n => n.bssid == network.bssid)) := by
  unfold _assess_signal_fluctuation
  rw [msl_filter]
  have hlen : (matching_signal_levels network historical_data).length
      = (historical_data.filter (fun n => n.bssid == network.bssid)).length := by
    simp [matching_signal_levels]
  by_cases hm : (matching_signal_levels network historical_data).length < 3
  · have hf : (historical_data.filter (fun n => n.bssid == network.bssid)).length < 3 := by
      omega
    by_cases hh : historical_data.length < 3
    · rw [if_pos hh, if_pos hf]
    · rw [if_neg hh, if_pos hm, if_pos hf]
  · have hf : ¬(historical_data.filter (fun n => n.bssid == network.bssid)).length < 3 := by
      omega
    have hh : ¬historical_data.length < 3 := by
      have := List.length_filter_le (fun n => n.bssid == network.bssid) historical_data
      omega
    rw [if_neg hh, if_neg hf]

/-- Claim C3 (amended): history entries whose bssid differs from the
observation's are ignored by `signal_fluctuation` and by every factor other
than `temporal_risk`; `temporal_risk` depends on the history only through its
non-emptiness, so removing the non-matching entries leaves the whole result
(breakdown and total) unchanged whenever it does not change whether the
history is empty. -/
theorem C3_nonmatching_history_ignored (network : NetworkProfile)
    (historical_data : List NetworkProfile) (current_hour : Nat) :
    ((calculate_risk_score network historical_data current_hour).2.signal_fluctuation
        = (calculate_risk_score network
            (historical_data.filter (fun n => n.bssid == network.bssid))
            current_hour).2.signal_fluctuation
      ∧ (calculate_risk_score network historical_data current_hour).2.open_network
        = (calculate_risk_score network
            (historical_data.filter (fun n => n.bssid == network.bssid))
            current_hour).2.open_network
      ∧ (calculate_risk_score network historical_data current_hour).2.hidden_ssid
        = (calculate_risk_score network
            (historical_data.filter (fun n => n.bssid == network.bssid))
            current_hour).2.hidden_ssid
      ∧ (calculate_risk_score network historical_data current_hour).2.weak_encryption
        = (calculate_risk_score network
            (historical_data.filter (fun n => n.bssid == network.bssid))
            current_hour).2.weak_encryption
      ∧ (calculate_risk_score network historical_data current_hour).2.suspicious_ssid
        = (calculate_risk_score network
            (historical_data.filter (fun n => n.bssid == network.bssid))
            current_hour).2.suspicious_ssid
      ∧ (calculate_risk_score network historical_data current_hour).2.proximity_risk
        = (calculate_risk_score network
            (historical_data.filter (fun n => n.bssid == network.bssid))
            current_hour).2.proximity_risk
      ∧ (calculate_risk_score network historical_data current_hour).2.vendor_risk
        = (calculate_risk_score network
            (historical_data.filter (fun n => n.bssid == network.bssid))
            current_hour).2.vendor_risk
      ∧ (calculate_risk_score network historical_data current_hour).2.beacon_anomaly
        = (calculate_risk_score network
            (historical_data.filter (fun n => n.bssid == network.bssid))
            current_hour).2.beacon_anomaly
      ∧ (calculate_risk_score network historical_data current_hour).2.channel_conflict
        = (calculate_risk_score network
            (historical_data.filter (fun n => n.bssid == network.bssid))
            current_hour).2.channel_conflict)
    ∧ ((historical_data = []
          ↔ historical_data.filter (fun n => n.bssid == network.bssid) = []) →
        calculate_risk_score network historical_data current_hour
          = calculate_risk_score network
              (historical_data.filter (fun n => n.bssid == network.bssid))
              current_hour) := by
  have efl : (if historical_data.isEmpty then (0 : Int)
        else _assess_signal_fluctuation network historical_data)
      = (if (historical_data.filter (fun n => n.bssid == network.bssid)).isEmpty
          then 0
          else _assess_signal_fluctuation network
            (historical_data.filter (fun n => n.bssid == network.bssid))) := by
    by_cases he : historical_data.isEmpty
    · have h0 : historical_data = [] := by simpa using he
      subst h0
      rfl
    · rw [if_neg he]
      by_cases hf : (historical_data.filter (fun n => n.bssid == network.bssid)).isEmpty
      · rw [if_pos hf, fluct_on_matching]
        have h0 : historical_data.filter (fun n => n.bssid == network.bssid) = [] := by
          simpa using hf
        rw [h0]
        rfl
      · rw [if_neg hf, fluct_on_matching]
  refine ⟨⟨efl, rfl, rfl, rfl, rfl, rfl, rfl, rfl, rfl⟩, ?_⟩
  intro hiff
  have hb : historical_data.isEmpty
      = (historical_data.filter (fun n => n.bssid == network.bssid)).isEmpty := by
    by_cases he : historical_data = []
    · subst he; rfl
    · have hf : historical_data.filter (fun n => n.bssid == network.bssid) ≠ [] :=
        fun h => he (hiff.mpr h)
      rw [List.isEmpty_eq_false.mpr he, List.isEmpty_eq_false.mpr hf]
  have et : (if historical_data.isEmpty then (0 : Int)
        else _assess_temporal_patterns network historical_data current_hour)
      = (if (historical_data.filter (fun n => n.bssid == network.bssid)).isEmpty
          then 0
          else _assess_temporal_patterns network
            (historical_data.filter (fun n => n.bssid == network.bssid))
            current_hour) := by
    unfold _assess_temporal_patterns
    rw [hb]
  have hfac : calculate_risk_factors network historical_data current_hour
      = calculate_risk_factors network
          (historical_data.filter (fun n => n.bssid == network.bssid)) current_hour := by
    unfold calculate_risk_factors
    rw [efl, et]
  unfold calculate_risk_score
  rw [hfac]

/-- Claim C3 (counterexample): at hour 3, adding a single history entry whose
bssid does not match the observation's changes the total score (5 temporal
points appear), so non-matching entries are not ignored. -/
theorem C3_counterexample :
    otherBssidObservation.bssid ≠ wpa3OnlyObservation.bssid
    ∧ (calculate_risk_score wpa3OnlyObservation [otherBssidObservation] 3).1
        ≠ (calculate_risk_score wpa3OnlyObservation [] 3).1
    ∧ (calculate_risk_score wpa3OnlyObservation [otherBssidObservation] 3).2.temporal_risk
        ≠ (calculate_risk_score wpa3OnlyObservation [] 3).2.temporal_risk := by
  decide

/-- Claim C3 witness: the amended statement at a two-entry history with one
matching and one non-matching entry, at hour 3. -/
theorem C3_witness :
    calculate_risk_score wpa3OnlyObservation
        [otherBssidObservation, matchingHistoryObservation] 3
      = calculate_risk_score wpa3OnlyObservation
          ([otherBssidObservation, matchingHistoryObservation].filter
            (fun n => n.bssid == wpa3OnlyObservation.bssid)) 3 :=
  (C3_nonmatching_history_ignored wpa3OnlyObservation
    [otherBssidObservation, matchingHistoryObservation] 3).2 (by decide)

lemma population_variance_nonneg (signal_levels : List Int) :
    0 ≤ population_variance signal_levels := by
  unfold population_variance
  apply div_nonneg
  · apply List.sum_nonneg
    intro x hx
    obtain ⟨a, _, rfl⟩ := List.mem_map.mp hx
    positivity
  · positivity

lemma fluct_opt_eq (network : NetworkProfile)
    (historical_data : List NetworkProfile) :
    _assess_signal_fluctuation_opt network historical_data
      = some (_assess_signal_fluctuation network historical_data) := by
  unfold _assess_signal_fluctuation_opt _assess_signal_fluctuation
  by_cases h1 : historical_data.length < 3
  · rw [if_pos h1, if_pos h1]
  · rw [if_neg h1, if_neg h1]
    by_cases h2 : (matching_signal_levels network historical_data).length < 3
    · rw [if_pos h2, if_pos h2]
    · rw [if_neg h2, if_neg h2]
      have hc : ¬(((matching_signal_levels network historical_data).length : ℚ) = 0) :=
        Nat.cast_ne_zero.mpr (by omega)
      rw [if_neg hc]
      have hnv : ¬population_variance (matching_signal_levels network historical_data) < 0 :=
        not_lt.mpr (population_variance_nonneg _)
      rw [if_neg hnv]

/-- Claim C8 (counterexample): a non-open observation whose capabilities
string "[ESS]" carries no recognized encryption token gets
`weak_encryption = 20`, not the zero contribution claimed for malformed
capability strings. -/
theorem C8_counterexample :
    essOnlyObservation.is_open = false
    ∧ (calculate_risk_score essOnlyObservation [] 12).2.weak_encryption = 20
    ∧ (20 : Int) ≠ 0 := by decide

/-- Claim C8 (amended): `calculate_risk_score` never raises on well-formed
input — the Option-valued mirror with every Python-fallible operation made
explicit always returns `some`, the standard deviation only being computed
after at least 3 matching entries are confirmed; a missing vendor and an
empty SSID contribute zero to their factors, while a capabilities string with
none of the recognized tokens contributes 20 (elevated risk) to
`weak_encryption` when the network is not open, rather than causing an
error. -/
theorem C8_totality (network : NetworkProfile)
    (historical_data : List NetworkProfile) (current_hour : Nat) :
    calculate_risk_score_opt network historical_data current_hour
      = some (calculate_risk_score network historical_data current_hour)
    ∧ (network.vendor = none →
        (calculate_risk_score network historical_data current_hour).2.vendor_risk = 0)
    ∧ (network.ssid = "" →
        (calculate_risk_score network historical_data current_hour).2.suspicious_ssid = 0)
    ∧ (network.is_open = false →
        charsContain (upperChars network.capabilities) "WEP" = false →
        charsContain (upperChars network.capabilities) "WPA" = false →
        charsContain (upperChars network.capabilities) "WPA2" = false →
        charsContain (upperChars network.capabilities) "WPA3" = false →
        (calculate_risk_score network historical_data current_hour).2.weak_encryption
          = 20) := by
  refine ⟨?_, ?_, ?_, ?_⟩
  · have hfl : (if historical_data.isEmpty then some (0 : Int)
        else _assess_signal_fluctuation_opt network historical_data)
        = some (if historical_data.isEmpty then 0
                else _assess_signal_fluctuation network historical_data) := by
      by_cases h : historical_data.isEmpty <;> simp [h, fluct_opt_eq]
    unfold calculate_risk_score_opt
    rw [hfl]
    rfl
  · intro h
    show _assess_vendor_risk network = 0
    unfold _assess_vendor_risk
    rw [h]
  · intro h
    show _assess_suspicious_ssid network = 0
    unfold _assess_suspicious_ssid
    rw [if_pos h]
  · intro hopen hwep hwpa hwpa2 hwpa3
    show _assess_encryption_strength network = 20
    unfold _assess_encryption_strength
    simp [hopen, hwep, hwpa, hwpa2, hwpa3]

/-- Claim C8 witness: the amended statement at a concrete observation with no
vendor, empty SSID, unrecognized capabilities, and a 3-entry matching
history. -/
theorem C8_witness :
    calculate_risk_score_opt essOnlyObservation fluctuatingHistory 12
      = some (calculate_risk_score essOnlyObservation fluctuatingHistory 12)
    ∧ (calculate_risk_score essOnlyObservation fluctuatingHistory 12).2.vendor_risk = 0
    ∧ (calculate_risk_score essOnlyObservation fluctuatingHistory 12).2.suspicious_ssid = 0
    ∧ (calculate_risk_score essOnlyObservation fluctuatingHistory 12).2.weak_encryption = 20 :=
  ⟨(C8_totality essOnlyObservation fluctuatingHistory 12).1,
   (C8_totality essOnlyObservation fluctuatingHistory 12).2.1 rfl,
   (C8_totality essOnlyObservation fluctuatingHistory 12).2.2.1 rfl,
   (C8_totality essOnlyObservation fluctuatingHistory 12).2.2.2 rfl
     (by decide) (by decide) (by decide) (by decide)⟩

end CivopsRadar
